import Mathlib

/-!
# Verification of the discussion-forum backend (src/Node.js)

Shallow embedding of the Express/Mongoose handlers in `src/Node.js`.

Modelling conventions:
* Mongo documents live in `DB`, one list per collection, with a shared
  generated-identifier counter (`nextId`) standing for ObjectId generation.
* Request bodies are destructured in the handlers (`const { x } = req.body`),
  so each handler receives exactly the destructured fields; a field absent
  from the JSON body is `Option.none`.  Extra body keys never reach a handler.
* Mongoose `required: true` on a `String` path rejects an absent field and
  the empty string at `save()` time; a failed `save` throws, landing in the
  handler's `catch` block.
* `bcrypt.hash` is an abstract salted digest function `hash : String → String`
  (a single call per signup, so salting is unobservable here); calling it with
  an absent password throws, landing in `catch`.  `bcrypt.compare` is an
  abstract `verify : String → String → Bool`; calling it with an absent
  plaintext throws.
* `Model.findOne` with an `undefined` filter value: Mongoose strips
  `undefined` from query filters, so `findOne({ email: undefined })` behaves
  as `findOne({})` and returns the first stored document, if any.
-/

namespace Forum

/-- A stored `User` document (`UserSchema`, src/Node.js lines 38-43).
`password` holds the bcrypt digest after signup. -/
structure User where
  id : Nat
  firstName : String
  lastName : String
  email : String
  password : String
  deriving Repr, DecidableEq

/-- A stored `Question` document (`QuestionSchema`, src/Node.js lines 24-29). -/
structure Question where
  id : Nat
  title : String
  description : String
  resolved : Bool
  upvotes : Int
  deriving Repr, DecidableEq

/-- A stored `Reply` document (`ReplySchema`, src/Node.js lines 32-35). -/
structure Reply where
  id : Nat
  content : String
  questionId : Nat
  deriving Repr, DecidableEq

/-- The document store: the three collections plus the identifier generator. -/
structure DB where
  users : List User
  questions : List Question
  replies : List Reply
  nextId : Nat
  deriving Repr, DecidableEq

/-- The empty store. -/
def DB.empty : DB := ⟨[], [], [], 0⟩

/-- Response payloads serialized by the handlers (`res.json(...)`): either no
document, a single document, or an array of documents. -/
inductive Payload where
  | nothing
  | user (u : User)
  | question (q : Question)
  | questions (qs : List Question)
  | reply (r : Reply)
  | replies (rs : List Reply)
  deriving Repr, DecidableEq

/-- An HTTP response: status code, the `message` field of the JSON body
(empty when the body is a raw array), and the document payload. -/
structure Resp where
  status : Nat
  message : String
  payload : Payload
  deriving Repr, DecidableEq

/-- `User.findOne({ email })` (src/Node.js line 62, line 85): first stored user
matching the filter.  An absent `email` is stripped from the filter by
Mongoose, so the query matches every document. -/
def findOneUser (db : DB) (email : Option String) : Option User :=
  match email with
  | some e => db.users.find? (fun u => u.email == e)
  | none => db.users.head?

/-- `Question.findById(id)` (src/Node.js lines 130, 162). -/
def findQuestion (db : DB) (id : Nat) : Option Question :=
  db.questions.find? (fun q => q.id == id)

/-- The request body of `POST /signup` after destructuring
(`const { firstName, lastName, email, password } = req.body`). -/
structure SignupReq where
  firstName : Option String
  lastName : Option String
  email : Option String
  password : Option String
  deriving Repr, DecidableEq

/-- Mongoose `required: true` check for a `String` path at `save()` time:
the field must be present and nonempty. -/
def requiredString : Option String → Bool
  | some s => s ≠ ""
  | none => false

/-- `POST /signup` (src/Node.js lines 57-77).
1. `User.findOne({ email })`: any match → 400 "Email already in use".
2. `bcrypt.hash(password, 10)`: throws on an absent password → catch → 500.
3. `new User({...}).save()`: Mongoose `required` validation on
   firstName/lastName/email (the digest is never empty, so the password path
   passes); a validation failure throws → catch → 500.
4. Success → 201 "User registered successfully!" with no payload. -/
def signup (hash : String → String) (db : DB) (req : SignupReq) : Resp × DB :=
  match findOneUser db req.email with
  | some _ => (⟨400, "Email already in use", .nothing⟩, db)
  | none =>
    match req.password with
    | none => (⟨500, "Error during signup", .nothing⟩, db)
    | some pw =>
      let digest := hash pw
      match req.firstName, req.lastName, req.email with
      | some fn, some ln, some em =>
        if fn ≠ "" ∧ ln ≠ "" ∧ em ≠ "" then
          let u : User := ⟨db.nextId, fn, ln, em, digest⟩
          (⟨201, "User registered successfully!", .nothing⟩,
            { db with users := db.users ++ [u], nextId := db.nextId + 1 })
        else (⟨500, "Error during signup", .nothing⟩, db)
      | _, _, _ => (⟨500, "Error during signup", .nothing⟩, db)

/-- `POST /login` (src/Node.js lines 80-101).
1. `User.findOne({ email })`: no match → 400 "Invalid email or password".
2. `bcrypt.compare(password, user.password)`: throws on an absent
   password → catch → 500; a mismatch → 400 with the same generic message.
3. Success → 200 "Login successful" with the full user document. -/
def login (verify : String → String → Bool) (db : DB)
    (email password : Option String) : Resp :=
  match findOneUser db email with
  | none => ⟨400, "Invalid email or password", .nothing⟩
  | some u =>
    match password with
    | none => ⟨500, "Error during login", .nothing⟩
    | some p =>
      if verify p u.password then ⟨200, "Login successful", .user u⟩
      else ⟨400, "Invalid email or password", .nothing⟩

/-- `GET /questions` (src/Node.js lines 104-111): the whole collection, as a
raw JSON array. -/
def listQuestions (db : DB) : Resp :=
  ⟨200, "", .questions db.questions⟩

/-- `POST /questions` (src/Node.js lines 114-123).
`new Question({ title, description }).save()`: `required` validation on both
fields; a failure throws → catch → 400 (this route's catch uses 400).
Success → 201 with the persisted question; `resolved`/`upvotes` take their
schema defaults `false`/`0`. -/
def createQuestion (db : DB) (title description : Option String) : Resp × DB :=
  match title, description with
  | some t, some d =>
    if t ≠ "" ∧ d ≠ "" then
      let q : Question := ⟨db.nextId, t, d, false, 0⟩
      (⟨201, "Question created successfully!", .question q⟩,
        { db with questions := db.questions ++ [q], nextId := db.nextId + 1 })
    else (⟨400, "validation failed", .nothing⟩, db)
  | _, _ => (⟨400, "validation failed", .nothing⟩, db)

/-- `PATCH /questions/:id` (src/Node.js lines 126-141).
`findById` miss → 404 "Question not found".  Each of `resolved` and `upvotes`
is assigned only when present in the body (`!== undefined`); `save()` writes
the document back in place.  Success → 200 with the updated question. -/
def updateQuestion (db : DB) (id : Nat)
    (resolved : Option Bool) (upvotes : Option Int) : Resp × DB :=
  match findQuestion db id with
  | none => (⟨404, "Question not found", .nothing⟩, db)
  | some q =>
    let q' : Question :=
      { q with resolved := resolved.getD q.resolved,
               upvotes := upvotes.getD q.upvotes }
    (⟨200, "Question updated successfully!", .question q'⟩,
      { db with questions := db.questions.map (fun x => if x.id == id then q' else x) })

/-- `DELETE /questions/:id` (src/Node.js lines 144-154).
`findByIdAndDelete`: miss → 404 "Question not found"; hit → the document is
removed and 200 "Question deleted successfully!".  Replies are not touched
(no cascade). -/
def deleteQuestion (db : DB) (id : Nat) : Resp × DB :=
  match findQuestion db id with
  | none => (⟨404, "Question not found", .nothing⟩, db)
  | some _ =>
    (⟨200, "Question deleted successfully!", .nothing⟩,
      { db with questions := db.questions.filter (fun q => q.id ≠ id) })

/-- `POST /questions/:id/replies` (src/Node.js lines 157-171).
`Question.findById(id)` first: miss → 404 "Question not found".  Only then
`new Reply({ content, questionId: id }).save()`: `required` validation on
`content`; a failure throws → catch → 400.  Success → 201 with the reply. -/
def addReply (db : DB) (qid : Nat) (content : Option String) : Resp × DB :=
  match findQuestion db qid with
  | none => (⟨404, "Question not found", .nothing⟩, db)
  | some _ =>
    if requiredString content then
      let r : Reply := ⟨db.nextId, content.getD "", qid⟩
      (⟨201, "Reply added successfully!", .reply r⟩,
        { db with replies := db.replies ++ [r], nextId := db.nextId + 1 })
    else (⟨400, "validation failed", .nothing⟩, db)

/-- `GET /questions/:id/replies` (src/Node.js lines 174-183):
`Reply.find({ questionId: id })`, as a raw JSON array; never a 404. -/
def listReplies (db : DB) (qid : Nat) : Resp :=
  ⟨200, "", .replies (db.replies.filter (fun r => r.questionId == qid))⟩

/-- One inbound API request (the JSON routes of src/Node.js). -/
inductive Op where
  | signup (req : SignupReq)
  | login (email password : Option String)
  | listQuestions
  | createQuestion (title description : Option String)
  | updateQuestion (id : Nat) (resolved : Option Bool) (upvotes : Option Int)
  | deleteQuestion (id : Nat)
  | addReply (qid : Nat) (content : Option String)
  | listReplies (qid : Nat)
  deriving Repr, DecidableEq

/-- Dispatch one request against the store. -/
def step (hash : String → String) (verify : String → String → Bool)
    (db : DB) : Op → Resp × DB
  | .signup req => signup hash db req
  | .login e p => (login verify db e p, db)
  | .listQuestions => (listQuestions db, db)
  | .createQuestion t d => createQuestion db t d
  | .updateQuestion id r u => updateQuestion db id r u
  | .deleteQuestion id => deleteQuestion db id
  | .addReply qid c => addReply db qid c
  | .listReplies qid => (listReplies db qid, db)

/-- Run a sequence of requests, keeping only the final store. -/
def run (hash : String → String) (verify : String → String → Bool)
    (db : DB) (ops : List Op) : DB :=
  ops.foldl (fun d op => (step hash verify d op).2) db

/-- All stored user emails are pairwise distinct. -/
def emailsUnique (db : DB) : Prop :=
  db.users.Pairwise (fun a b => a.email ≠ b.email)

instance (db : DB) : Decidable (emailsUnique db) :=
  inferInstanceAs (Decidable (List.Pairwise _ _))

/-- Some stored user has email `e`. -/
def registered (db : DB) (e : String) : Prop :=
  ∃ u ∈ db.users, u.email = e

instance (db : DB) (e : String) : Decidable (registered db e) :=
  inferInstanceAs (Decidable (∃ u ∈ db.users, _))

end Forum


namespace Forum

/-! ## Concrete fixtures used to instantiate the abstract hash/verify pair -/

/-- A concrete stand-in digest function for instantiating `hash`. -/
def hash0 : String → String := fun s => "H" ++ s

/-- The matching stand-in for `bcrypt.compare`. -/
def verify0 : String → String → Bool := fun p d => d == "H" ++ p

/-- A one-user store: the result of a successful signup of `req0`. -/
def req0 : SignupReq := ⟨some "A", some "B", some "a@b", some "pw"⟩

/-- A store holding exactly the user created from `req0`. -/
def dbW : DB := ⟨[⟨0, "A", "B", "a@b", "Hpw"⟩], [], [], 1⟩

/-- A store holding exactly one question, as created on an empty store. -/
def dbQ : DB := (createQuestion DB.empty (some "T") (some "D")).2

/-! ## Generic list lemmas -/

/-- In a list whose `key`s are pairwise distinct, any member whose key matches
the search key is the element `find?` returns. -/
theorem find_key_unique {α β : Type} [DecidableEq β] (key : α → β) :
    ∀ (l : List α) (k : β) (a x : α),
      l.Pairwise (fun p q => key p ≠ key q) →
      l.find? (fun y => key y == k) = some a → x ∈ l → key x = k → x = a := by
  intro l
  induction l with
  | nil => intro k a x _ hfind; simp at hfind
  | cons hd tl ih =>
    intro k a x hpw hfind hx hk
    rw [List.pairwise_cons] at hpw
    rw [List.find?_cons] at hfind
    by_cases hhd : key hd = k
    · have : (key hd == k) = true := by simp [hhd]
      rw [this] at hfind
      cases hfind
      rcases List.mem_cons.mp hx with h | h
      · exact h
      · exact absurd (hk.trans hhd.symm) (Ne.symm (hpw.1 x h))
    · have : (key hd == k) = false := by simp [hhd]
      rw [this] at hfind
      rcases List.mem_cons.mp hx with h | h
      · exact absurd (h ▸ hk) hhd
      · exact ih k a x hpw.2 hfind h hk

/-- A user returned by `findOneUser` is a stored user. -/
theorem findOneUser_mem (db : DB) (e : Option String) (u : User)
    (h : findOneUser db e = some u) : u ∈ db.users := by
  unfold findOneUser at h
  cases e with
  | some s => exact List.mem_of_find?_eq_some h
  | none => exact List.mem_of_mem_head? h

/-! ## C1: login authentication -/

/-- C1.  For every (email, password) pair, login succeeds (HTTP 200) iff a
stored user with that email exists and `verify(password, storedHash)` holds;
in every other case it fails with status 400 and the identical generic
message "Invalid email or password", whether the email was unknown or the
password did not verify. -/
theorem login_authentication (verify : String → String → Bool) (db : DB)
    (e p : String) (huniq : emailsUnique db) :
    ((login verify db (some e) (some p)).status = 200 ↔
      ∃ u ∈ db.users, u.email = e ∧ verify p u.password = true) ∧
    ((login verify db (some e) (some p)).status ≠ 200 →
      login verify db (some e) (some p) = ⟨400, "Invalid email or password", .nothing⟩) := by
  unfold emailsUnique at huniq
  cases hfind : db.users.find? (fun u => u.email == e) with
  | none =>
    have hnone := List.find?_eq_none.mp hfind
    have hlogin : login verify db (some e) (some p) =
        ⟨400, "Invalid email or password", .nothing⟩ := by
      simp [login, findOneUser, hfind]
    rw [hlogin]
    constructor
    · constructor
      · intro h; exact absurd h (by decide)
      · rintro ⟨u, hu, hue, -⟩
        exact absurd (by simp [hue]) (hnone u hu)
    · intro _; rfl
  | some u =>
    have hu_mem := List.mem_of_find?_eq_some hfind
    have hue : u.email = e := by simpa using List.find?_some hfind
    by_cases hv : verify p u.password = true
    · have hlogin : login verify db (some e) (some p) =
          ⟨200, "Login successful", .user u⟩ := by
        simp [login, findOneUser, hfind, hv]
      rw [hlogin]
      constructor
      · exact iff_of_true rfl ⟨u, hu_mem, hue, hv⟩
      · intro h; exact absurd rfl h
    · have hlogin : login verify db (some e) (some p) =
          ⟨400, "Invalid email or password", .nothing⟩ := by
        simp [login, findOneUser, hfind, hv]
      rw [hlogin]
      constructor
      · constructor
        · intro h; exact absurd h (by decide)
        · rintro ⟨x, hx, hxe, hxv⟩
          have : x = u := find_key_unique User.email db.users e u x huniq hfind hx hxe
          exact absurd (this ▸ hxv) hv
      · intro _; rfl

/-- Witness for C1 at a concrete one-user store. -/
theorem login_authentication_witness :
    emailsUnique dbW ∧
    (((login verify0 dbW (some "a@b") (some "pw")).status = 200 ↔
      ∃ u ∈ dbW.users, u.email = "a@b" ∧ verify0 "pw" u.password = true) ∧
    ((login verify0 dbW (some "a@b") (some "pw")).status ≠ 200 →
      login verify0 dbW (some "a@b") (some "pw") =
        ⟨400, "Invalid email or password", .nothing⟩)) :=
  ⟨by decide, login_authentication verify0 dbW "a@b" "pw" (by decide)⟩

/-! ## Structural lemmas about signup -/

/-- A signup either leaves the store untouched (and is not a 201), or appends
exactly one user built from a fully-present request whose email was free. -/
theorem signup_shape (hash : String → String) (db : DB) (req : SignupReq) :
    ((signup hash db req).2 = db ∧ (signup hash db req).1.status ≠ 201) ∨
    (∃ fn ln em pw, req = ⟨some fn, some ln, some em, some pw⟩ ∧
      db.users.find? (fun u => u.email == em) = none ∧
      (signup hash db req).1.status = 201 ∧
      (signup hash db req).2 =
        { db with users := db.users ++ [⟨db.nextId, fn, ln, em, hash pw⟩],
                  nextId := db.nextId + 1 }) := by
  obtain ⟨fn, ln, em, pw⟩ := req
  cases em with
  | none =>
    left
    cases hu : db.users.head? with
    | some u => simp [signup, findOneUser, hu]
    | none =>
      cases pw with
      | none => simp [signup, findOneUser, hu]
      | some p => simp [signup, findOneUser, hu]
  | some e =>
    cases hfind : db.users.find? (fun u => u.email == e) with
    | some u => left; simp [signup, findOneUser, hfind]
    | none =>
      cases pw with
      | none => left; simp [signup, findOneUser, hfind]
      | some p =>
        cases fn with
        | none => left; simp [signup, findOneUser, hfind]
        | some f =>
          cases ln with
          | none => left; simp [signup, findOneUser, hfind]
          | some l =>
            by_cases hc : f ≠ "" ∧ l ≠ "" ∧ e ≠ ""
            · right
              refine ⟨f, l, e, p, rfl, hfind, ?_, ?_⟩ <;>
                simp [signup, findOneUser, hfind, hc.1, hc.2.1, hc.2.2]
            · left
              simp only [signup, findOneUser, hfind]
              rw [if_neg hc]
              exact ⟨rfl, by simp⟩

/-- Signup only ever appends to the user collection. -/
theorem signup_db_users (hash : String → String) (db : DB) (req : SignupReq) :
    ∃ l, (signup hash db req).2.users = db.users ++ l := by
  rcases signup_shape hash db req with ⟨h, -⟩ | ⟨fn, ln, em, pw, -, -, -, h⟩
  · exact ⟨[], by rw [h, List.append_nil]⟩
  · exact ⟨[⟨db.nextId, fn, ln, em, hash pw⟩], by rw [h]⟩

/-- Signup preserves email uniqueness: the appended user's email was free. -/
theorem signup_emailsUnique (hash : String → String) (db : DB) (req : SignupReq)
    (h : emailsUnique db) : emailsUnique (signup hash db req).2 := by
  rcases signup_shape hash db req with ⟨hdb, -⟩ | ⟨fn, ln, em, pw, -, hfind, -, hdb⟩
  · rw [hdb]; exact h
  · rw [hdb]
    unfold emailsUnique at h ⊢
    rw [List.pairwise_append]
    refine ⟨h, List.pairwise_singleton _ _, ?_⟩
    intro a ha b hb
    have hb0 : b = ⟨db.nextId, fn, ln, em, hash pw⟩ := by simpa using hb
    have hne := List.find?_eq_none.mp hfind a ha
    subst hb0
    intro hcontra
    exact hne (by simp [hcontra])

/-- If some stored user already has the requested email, signup returns the
409-style conflict response (HTTP 400, "Email already in use"). -/
theorem signup_conflict (hash : String → String) (db : DB) (req : SignupReq)
    (e : String) (hem : req.email = some e) (hreg : registered db e) :
    (signup hash db req).1 = ⟨400, "Email already in use", .nothing⟩ := by
  obtain ⟨u, hu, hue⟩ := hreg
  have hsome : (db.users.find? (fun x => x.email == e)).isSome :=
    List.find?_isSome.mpr ⟨u, hu, by simp [hue]⟩
  obtain ⟨u0, hu0⟩ := Option.isSome_iff_exists.mp hsome
  obtain ⟨fn, ln, em, pw⟩ := req
  have hem' : em = some e := hem
  subst hem'
  simp [signup, findOneUser, hu0]

/-! ## Per-handler frame lemmas (which collections each handler can touch) -/

/-- Creating a question never touches users or replies, and the identifier
counter never decreases. -/
theorem createQuestion_parts (db : DB) (t d : Option String) :
    (createQuestion db t d).2.users = db.users ∧
    (createQuestion db t d).2.replies = db.replies ∧
    db.nextId ≤ (createQuestion db t d).2.nextId := by
  unfold createQuestion
  split
  · split
    · exact ⟨rfl, rfl, Nat.le_succ _⟩
    · exact ⟨rfl, rfl, Nat.le_refl _⟩
  · exact ⟨rfl, rfl, Nat.le_refl _⟩

/-- Updating a question never touches users or replies or the counter. -/
theorem updateQuestion_parts (db : DB) (id : Nat) (r : Option Bool) (u : Option Int) :
    (updateQuestion db id r u).2.users = db.users ∧
    (updateQuestion db id r u).2.replies = db.replies ∧
    (updateQuestion db id r u).2.nextId = db.nextId := by
  unfold updateQuestion
  split
  · exact ⟨rfl, rfl, rfl⟩
  · exact ⟨rfl, rfl, rfl⟩

/-- Deleting a question never touches users or replies or the counter. -/
theorem deleteQuestion_parts (db : DB) (id : Nat) :
    (deleteQuestion db id).2.users = db.users ∧
    (deleteQuestion db id).2.replies = db.replies ∧
    (deleteQuestion db id).2.nextId = db.nextId := by
  unfold deleteQuestion
  split
  · exact ⟨rfl, rfl, rfl⟩
  · exact ⟨rfl, rfl, rfl⟩

/-- Adding a reply never touches users or questions, and the identifier
counter never decreases. -/
theorem addReply_parts (db : DB) (qid : Nat) (c : Option String) :
    (addReply db qid c).2.users = db.users ∧
    (addReply db qid c).2.questions = db.questions ∧
    db.nextId ≤ (addReply db qid c).2.nextId := by
  unfold addReply
  split
  · exact ⟨rfl, rfl, Nat.le_refl _⟩
  · split
    · exact ⟨rfl, rfl, Nat.le_succ _⟩
    · exact ⟨rfl, rfl, Nat.le_refl _⟩

/-! ## Invariants preserved by every request -/

/-- No request ever removes a user: the user collection only grows. -/
theorem step_users_mono (hash : String → String) (verify : String → String → Bool)
    (db : DB) (op : Op) :
    ∃ l, (step hash verify db op).2.users = db.users ++ l := by
  cases op with
  | signup req => exact signup_db_users hash db req
  | login e p => exact ⟨[], (List.append_nil _).symm⟩
  | listQuestions => exact ⟨[], (List.append_nil _).symm⟩
  | listReplies qid => exact ⟨[], (List.append_nil _).symm⟩
  | createQuestion t d =>
    refine ⟨[], ?_⟩
    show (createQuestion db t d).2.users = db.users ++ []
    rw [(createQuestion_parts db t d).1, List.append_nil]
  | updateQuestion id r u =>
    refine ⟨[], ?_⟩
    show (updateQuestion db id r u).2.users = db.users ++ []
    rw [(updateQuestion_parts db id r u).1, List.append_nil]
  | deleteQuestion id =>
    refine ⟨[], ?_⟩
    show (deleteQuestion db id).2.users = db.users ++ []
    rw [(deleteQuestion_parts db id).1, List.append_nil]
  | addReply qid c =>
    refine ⟨[], ?_⟩
    show (addReply db qid c).2.users = db.users ++ []
    rw [(addReply_parts db qid c).1, List.append_nil]

/-- A registered email stays registered across any single request. -/
theorem step_registered (hash : String → String) (verify : String → String → Bool)
    (db : DB) (op : Op) (e : String) (h : registered db e) :
    registered (step hash verify db op).2 e := by
  obtain ⟨l, hl⟩ := step_users_mono hash verify db op
  obtain ⟨u, hu, hue⟩ := h
  exact ⟨u, by rw [hl]; exact List.mem_append_left l hu, hue⟩

/-- Email uniqueness is preserved across any single request. -/
theorem step_emailsUnique (hash : String → String) (verify : String → String → Bool)
    (db : DB) (op : Op) (h : emailsUnique db) :
    emailsUnique (step hash verify db op).2 := by
  cases op with
  | signup req => exact signup_emailsUnique hash db req h
  | login e p => exact h
  | listQuestions => exact h
  | listReplies qid => exact h
  | createQuestion t d =>
    unfold emailsUnique at h ⊢
    show List.Pairwise (fun a b => a.email ≠ b.email) (createQuestion db t d).2.users
    rw [(createQuestion_parts db t d).1]; exact h
  | updateQuestion id r u =>
    unfold emailsUnique at h ⊢
    show List.Pairwise (fun a b => a.email ≠ b.email) (updateQuestion db id r u).2.users
    rw [(updateQuestion_parts db id r u).1]; exact h
  | deleteQuestion id =>
    unfold emailsUnique at h ⊢
    show List.Pairwise (fun a b => a.email ≠ b.email) (deleteQuestion db id).2.users
    rw [(deleteQuestion_parts db id).1]; exact h
  | addReply qid c =>
    unfold emailsUnique at h ⊢
    show List.Pairwise (fun a b => a.email ≠ b.email) (addReply db qid c).2.users
    rw [(addReply_parts db qid c).1]; exact h

/-- A registered email stays registered across any request sequence. -/
theorem run_registered (hash : String → String) (verify : String → String → Bool)
    (e : String) : ∀ (ops : List Op) (db : DB),
    registered db e → registered (run hash verify db ops) e := by
  intro ops
  induction ops with
  | nil => intro db h; exact h
  | cons op tl ih =>
    intro db h
    exact ih _ (step_registered hash verify db op e h)

/-- Email uniqueness is preserved across any request sequence. -/
theorem run_emailsUnique (hash : String → String) (verify : String → String → Bool) :
    ∀ (ops : List Op) (db : DB),
    emailsUnique db → emailsUnique (run hash verify db ops) := by
  intro ops
  induction ops with
  | nil => intro db h; exact h
  | cons op tl ih =>
    intro db h
    exact ih _ (step_emailsUnique hash verify db op h)

/-! ## C2: signup succeeds once per email; emails stay unique -/

/-- C2.  A valid signup (all four fields present, the string fields nonempty)
with an email not yet registered succeeds with status 201; afterwards, any
signup with the same email — even after an arbitrary sequence of further
requests — fails with the conflict response (400, "Email already in use");
and starting from a store with pairwise-distinct emails, every reachable
store keeps all user emails pairwise distinct. -/
theorem signup_unique_email (hash : String → String) (verify : String → String → Bool)
    (db : DB) (f l e pw : String)
    (hf : f ≠ "") (hl : l ≠ "") (he : e ≠ "")
    (hfresh : ¬ registered db e) (huniq : emailsUnique db) :
    (signup hash db ⟨some f, some l, some e, some pw⟩).1.status = 201 ∧
    (∀ ops req2, req2.email = some e →
      (signup hash
        (run hash verify (signup hash db ⟨some f, some l, some e, some pw⟩).2 ops)
        req2).1 = ⟨400, "Email already in use", .nothing⟩) ∧
    (∀ ops,
      emailsUnique
        (run hash verify (signup hash db ⟨some f, some l, some e, some pw⟩).2 ops)) := by
  have hfind : db.users.find? (fun u => u.email == e) = none := by
    rw [List.find?_eq_none]
    intro x hx hxe
    exact hfresh ⟨x, hx, by simpa using hxe⟩
  have hsucc : signup hash db ⟨some f, some l, some e, some pw⟩ =
      (⟨201, "User registered successfully!", .nothing⟩,
       { db with users := db.users ++ [⟨db.nextId, f, l, e, hash pw⟩],
                 nextId := db.nextId + 1 }) := by
    simp [signup, findOneUser, hfind, hf, hl, he]
  refine ⟨by rw [hsucc], ?_, ?_⟩
  · intro ops req2 hem2
    have hreg1 : registered (signup hash db ⟨some f, some l, some e, some pw⟩).2 e := by
      rw [hsucc]
      exact ⟨⟨db.nextId, f, l, e, hash pw⟩,
        List.mem_append_right _ (List.mem_singleton_self _), rfl⟩
    exact signup_conflict hash _ req2 e hem2 (run_registered hash verify e ops _ hreg1)
  · intro ops
    exact run_emailsUnique hash verify ops _ (signup_emailsUnique hash db _ huniq)

/-- Witness for C2 on the empty store, with the second signup immediate. -/
theorem signup_unique_email_witness :
    (signup hash0 DB.empty ⟨some "A", some "B", some "a@b", some "pw"⟩).1.status = 201 ∧
    (signup hash0
      (run hash0 verify0 (signup hash0 DB.empty ⟨some "A", some "B", some "a@b", some "pw"⟩).2 [])
      req0).1 = ⟨400, "Email already in use", .nothing⟩ ∧
    emailsUnique
      (run hash0 verify0 (signup hash0 DB.empty ⟨some "A", some "B", some "a@b", some "pw"⟩).2 []) := by
  have h := signup_unique_email hash0 verify0 DB.empty "A" "B" "a@b" "pw"
    (by decide) (by decide) (by decide) (by decide) (by decide)
  exact ⟨h.1, h.2.1 [] req0 rfl, h.2.2 []⟩

/-- Signup's status is 400 exactly when the existence check matched; otherwise
it is 500 (a throw caught by the generic handler) or 201. -/
theorem signup_status_cases (hash : String → String) (db : DB) (req : SignupReq) :
    ((signup hash db req).1.status = 400 ∧ ∃ u, findOneUser db req.email = some u) ∨
    ((signup hash db req).1.status = 500 ∧ findOneUser db req.email = none) ∨
    (signup hash db req).1.status = 201 := by
  unfold signup
  split
  · rename_i u heq
    left
    exact ⟨rfl, u, heq⟩
  · rename_i heq
    split
    · right; left; exact ⟨rfl, heq⟩
    · split
      · split
        · right; right; rfl
        · right; left; exact ⟨rfl, heq⟩
      all_goals (right; left; exact ⟨rfl, heq⟩)

/-- Every signup response carries no document payload: in particular no
password field is ever echoed back. -/
theorem signup_payload (hash : String → String) (db : DB) (req : SignupReq) :
    (signup hash db req).1.payload = .nothing := by
  unfold signup
  repeat' split
  all_goals rfl

/-! ## C3: a signup request with an absent field -/

/-- Counterexample to C3 as stated: a signup with `firstName` absent (the
other three fields present, the email fresh) is rejected with HTTP status
500 — the Mongoose required-field throw lands in the route's generic catch —
not with a 400 ValidationError. -/
theorem signup_missing_field_cex :
    (⟨none, some "L", some "a@b", some "pw"⟩ : SignupReq).firstName = none ∧
    (signup hash0 DB.empty ⟨none, some "L", some "a@b", some "pw"⟩).1.status = 500 ∧
    ¬(signup hash0 DB.empty ⟨none, some "L", some "a@b", some "pw"⟩).1.status = 400 := by
  decide

/-- C3 (amended).  A signup request with any of the four fields absent never
succeeds (status is never 201); when the initial email-existence check does
not match a stored user, the failure surfaces as HTTP 500 from the route's
generic catch handler, not as a 400 validation response. -/
theorem signup_missing_field (hash : String → String) (db : DB) (req : SignupReq)
    (hmiss : req.firstName = none ∨ req.lastName = none ∨
      req.email = none ∨ req.password = none) :
    (signup hash db req).1.status ≠ 201 ∧
    (findOneUser db req.email = none → (signup hash db req).1.status = 500) := by
  have hne : (signup hash db req).1.status ≠ 201 := by
    rcases signup_shape hash db req with ⟨-, hne⟩ | ⟨fn, ln, em, pw, hreq, -, -, -⟩
    · exact hne
    · exfalso
      rcases hmiss with h | h | h | h <;> rw [hreq] at h <;> exact absurd h (by simp)
  refine ⟨hne, fun hfo => ?_⟩
  rcases signup_status_cases hash db req with ⟨-, u, hu⟩ | ⟨h500, -⟩ | h201
  · rw [hfo] at hu; exact Option.noConfusion hu
  · exact h500
  · exact absurd h201 hne

/-- Witness for the amended C3: a request missing only `firstName` against
the empty store yields status 500 and is not a 201. -/
theorem signup_missing_field_witness :
    (signup hash0 DB.empty ⟨some "F", none, some "b@b", some "pw"⟩).1.status ≠ 201 ∧
    (findOneUser DB.empty (⟨some "F", none, some "b@b", some "pw"⟩ : SignupReq).email = none →
      (signup hash0 DB.empty ⟨some "F", none, some "b@b", some "pw"⟩).1.status = 500) :=
  signup_missing_field hash0 DB.empty ⟨some "F", none, some "b@b", some "pw"⟩
    (Or.inr (Or.inl rfl))

/-! ## C8: login echoes the stored record, signup does not -/

/-- C8.  A successful login returns the full stored user document — the very
record held in the store, hashed password digest included — as the response
payload, while a successful signup returns a payload with no user document
(hence no password field). -/
theorem login_payload_exposure (verify : String → String → Bool)
    (hash : String → String) (db : DB) (e p : Option String) (req : SignupReq) :
    ((login verify db e p).status = 200 →
      ∃ u, findOneUser db e = some u ∧ u ∈ db.users ∧
        (login verify db e p).payload = .user u) ∧
    ((signup hash db req).1.status = 201 →
      (signup hash db req).1.payload = .nothing) := by
  constructor
  · intro h200
    cases hfo : findOneUser db e with
    | none =>
      have hl : login verify db e p = ⟨400, "Invalid email or password", .nothing⟩ := by
        simp [login, hfo]
      rw [hl] at h200; exact absurd h200 (by decide)
    | some u =>
      cases p with
      | none =>
        have hl : login verify db e none = ⟨500, "Error during login", .nothing⟩ := by
          simp [login, hfo]
        rw [hl] at h200; exact absurd h200 (by decide)
      | some pw =>
        by_cases hv : verify pw u.password = true
        · have hl : login verify db e (some pw) = ⟨200, "Login successful", .user u⟩ := by
            simp [login, hfo, hv]
          exact ⟨u, rfl, findOneUser_mem db e u hfo, by rw [hl]⟩
        · have hl : login verify db e (some pw) =
              ⟨400, "Invalid email or password", .nothing⟩ := by
            simp [login, hfo, hv]
          rw [hl] at h200; exact absurd h200 (by decide)
  · intro _
    exact signup_payload hash db req

/-- Witness for C8: a concrete successful login exposes the stored digest,
and a concrete successful signup exposes nothing. -/
theorem login_payload_exposure_witness :
    (∃ u, findOneUser dbW (some "a@b") = some u ∧ u ∈ dbW.users ∧
      (login verify0 dbW (some "a@b") (some "pw")).payload = .user u) ∧
    (signup hash0 DB.empty req0).1.payload = .nothing := by
  exact ⟨(login_payload_exposure verify0 hash0 dbW (some "a@b") (some "pw") req0).1 (by decide),
    (login_payload_exposure verify0 hash0 DB.empty (some "a@b") (some "pw") req0).2 (by decide)⟩

/-! ## C4: create / list round-trip -/

/-- C4.  After a successful create with title `t` and description `d`, the
list endpoint's payload contains a question with exactly those two fields and
the schema defaults `resolved = false`, `upvotes = 0`. -/
theorem create_list_roundtrip (db : DB) (t d : String) (ht : t ≠ "") (hd : d ≠ "") :
    (createQuestion db (some t) (some d)).1.status = 201 ∧
    ∃ qs, (listQuestions (createQuestion db (some t) (some d)).2).payload = .questions qs ∧
      ∃ q ∈ qs, q.title = t ∧ q.description = d ∧ q.resolved = false ∧ q.upvotes = 0 := by
  have hc : createQuestion db (some t) (some d) =
      (⟨201, "Question created successfully!", .question ⟨db.nextId, t, d, false, 0⟩⟩,
       { db with questions := db.questions ++ [⟨db.nextId, t, d, false, 0⟩],
                 nextId := db.nextId + 1 }) := by
    simp [createQuestion, ht, hd]
  refine ⟨by rw [hc], ?_⟩
  rw [hc]
  exact ⟨_, rfl, ⟨db.nextId, t, d, false, 0⟩,
    List.mem_append_right _ (List.mem_singleton_self _), rfl, rfl, rfl, rfl⟩

/-- Witness for C4 on the empty store with title "T", description "D". -/
theorem create_list_roundtrip_witness :
    (createQuestion DB.empty (some "T") (some "D")).1.status = 201 ∧
    ∃ qs, (listQuestions (createQuestion DB.empty (some "T") (some "D")).2).payload =
        .questions qs ∧
      ∃ q ∈ qs, q.title = "T" ∧ q.description = "D" ∧ q.resolved = false ∧ q.upvotes = 0 :=
  create_list_roundtrip DB.empty "T" "D" (by decide) (by decide)

/-! ## C5: partial update semantics -/

/-- Replacing, in place, every question whose id matches the searched id by a
record with the same id keeps `find?` pointing at the replacement. -/
theorem find_map_replace (id : Nat) (q' : Question) :
    ∀ (l : List Question) (q : Question),
      l.find? (fun x => x.id == id) = some q → q'.id = q.id →
      (l.map (fun x => if x.id == id then q' else x)).find?
        (fun x => x.id == id) = some q' := by
  intro l
  induction l with
  | nil => intro q h _; simp at h
  | cons a t ih =>
    intro q hfind hid
    by_cases ha : a.id = id
    · have hpa : ((a.id == id) = true) := by simp [ha]
      rw [List.find?_cons_of_pos t hpa] at hfind
      have hqa : q = a := (Option.some.inj hfind).symm
      subst hqa
      have hq' : ((q'.id == id) = true) := by simp [hid, ha]
      simp only [List.map_cons, if_pos hpa]
      exact List.find?_cons_of_pos _ hq'
    · have hpa : ¬((a.id == id) = true) := by simp [ha]
      rw [List.find?_cons_of_neg t hpa] at hfind
      simp only [List.map_cons, if_neg hpa]
      rw [List.find?_cons]
      have hb : (a.id == id) = false := by simp [ha]
      rw [hb]
      exact ih q hfind hid

/-- C5.  Updating an existing question sets `resolved`/`upvotes` to the body
value exactly when that key is present, keeping the stored value otherwise
(`Option.getD`); the response and a subsequent read both return that record.
In particular `update(id, {resolved: true})` leaves `upvotes` untouched. -/
theorem update_independent_fields (db : DB) (id : Nat) (q : Question)
    (r : Option Bool) (u : Option Int)
    (hfind : findQuestion db id = some q) :
    (updateQuestion db id r u).1.status = 200 ∧
    (updateQuestion db id r u).1.payload =
      .question { q with resolved := r.getD q.resolved, upvotes := u.getD q.upvotes } ∧
    findQuestion (updateQuestion db id r u).2 id =
      some { q with resolved := r.getD q.resolved, upvotes := u.getD q.upvotes } := by
  have hupd : updateQuestion db id r u =
      (⟨200, "Question updated successfully!",
        .question { q with resolved := r.getD q.resolved, upvotes := u.getD q.upvotes }⟩,
       { db with questions := (db.questions.map
          (fun x => if x.id == id then
            { q with resolved := r.getD q.resolved, upvotes := u.getD q.upvotes } else x)) }) := by
    simp [updateQuestion, hfind]
  have hfind' : db.questions.find? (fun x => x.id == id) = some q := hfind
  refine ⟨by rw [hupd], by rw [hupd], ?_⟩
  rw [hupd]
  exact find_map_replace id _ db.questions q hfind' rfl

/-- Witness for C5: setting `resolved := true` on the stored question keeps
its upvotes at 0 and its text fields intact. -/
theorem update_independent_fields_witness :
    (updateQuestion dbQ 0 (some true) none).1.status = 200 ∧
    (updateQuestion dbQ 0 (some true) none).1.payload = .question ⟨0, "T", "D", true, 0⟩ ∧
    findQuestion (updateQuestion dbQ 0 (some true) none).2 0 =
      some ⟨0, "T", "D", true, 0⟩ :=
  update_independent_fields dbQ 0 ⟨0, "T", "D", false, 0⟩ (some true) none (by decide)

/-! ## C10: update never changes title or description -/

/-- C10.  Whatever the request body holds (any combination of present/absent
`resolved` and `upvotes`; other keys are dropped by destructuring and never
reach the handler), the update endpoint preserves every stored question's
title and description, provided stored question ids are pairwise distinct. -/
theorem update_frame_title_description (db : DB) (id : Nat)
    (r : Option Bool) (u : Option Int)
    (hnd : db.questions.Pairwise (fun a b => a.id ≠ b.id)) :
    ((updateQuestion db id r u).2).questions.map (fun q => (q.title, q.description)) =
      db.questions.map (fun q => (q.title, q.description)) := by
  cases hfind : findQuestion db id with
  | none =>
    have hu : updateQuestion db id r u = (⟨404, "Question not found", .nothing⟩, db) := by
      simp [updateQuestion, hfind]
    rw [hu]
  | some q =>
    have hfind' : db.questions.find? (fun x => x.id == id) = some q := hfind
    have hupd : (updateQuestion db id r u).2 = { db with questions := (db.questions.map
        (fun x => if x.id == id then
          { q with resolved := r.getD q.resolved, upvotes := u.getD q.upvotes } else x)) } := by
      simp [updateQuestion, hfind]
    rw [hupd]
    show (db.questions.map _).map _ =
      db.questions.map (fun q => (q.title, q.description))
    rw [List.map_map]
    apply List.map_congr_left
    intro x hx
    by_cases hxid : x.id = id
    · have hxq : x = q := find_key_unique Question.id db.questions id q x hnd hfind' hx hxid
      subst hxq
      simp [hxid]
    · simp [hxid]

/-- Witness for C10: an update that flips `resolved` and sets `upvotes`
leaves the stored titles and descriptions of `dbQ` untouched. -/
theorem update_frame_title_description_witness :
    ((updateQuestion dbQ 0 (some true) (some 7)).2).questions.map
        (fun q => (q.title, q.description)) =
      dbQ.questions.map (fun q => (q.title, q.description)) :=
  update_frame_title_description dbQ 0 (some true) (some 7) (by decide)

/-! ## Question-identifier absence is stable under all requests -/

/-- Signup never touches questions or replies, and the counter never
decreases. -/
theorem signup_parts (hash : String → String) (db : DB) (req : SignupReq) :
    (signup hash db req).2.questions = db.questions ∧
    (signup hash db req).2.replies = db.replies ∧
    db.nextId ≤ (signup hash db req).2.nextId := by
  rcases signup_shape hash db req with ⟨hdb, -⟩ | ⟨fn, ln, em, pw, -, -, -, hdb⟩
  · rw [hdb]; exact ⟨rfl, rfl, Nat.le_refl _⟩
  · rw [hdb]; exact ⟨rfl, rfl, Nat.le_succ _⟩

/-- Create either leaves the store unchanged or appends one question whose id
is the current counter value. -/
theorem createQuestion_shape (db : DB) (t d : Option String) :
    (createQuestion db t d).2 = db ∨
    (∃ t0 d0, t = some t0 ∧ d = some d0 ∧
      (createQuestion db t d).2 = { db with
        questions := (db.questions ++ [⟨db.nextId, t0, d0, false, 0⟩]),
        nextId := db.nextId + 1 }) := by
  unfold createQuestion
  split
  · rename_i t0 d0
    split
    · right; exact ⟨t0, d0, rfl, rfl, rfl⟩
    · left; rfl
  all_goals left; rfl

/-- Update either leaves the questions unchanged or replaces, in place, the
matching question by one with the same id. -/
theorem updateQuestion_questions (db : DB) (id : Nat)
    (r : Option Bool) (u : Option Int) :
    (updateQuestion db id r u).2.questions = db.questions ∨
    (∃ q, findQuestion db id = some q ∧
      (updateQuestion db id r u).2.questions = (db.questions.map
        (fun x => if x.id == id then
          { q with resolved := r.getD q.resolved, upvotes := u.getD q.upvotes } else x))) := by
  cases hfind : findQuestion db id with
  | none => left; simp [updateQuestion, hfind]
  | some q => right; exact ⟨q, rfl, by simp [updateQuestion, hfind]⟩

/-- Delete either leaves the questions unchanged or filters out the matching
id. -/
theorem deleteQuestion_questions (db : DB) (id : Nat) :
    (deleteQuestion db id).2.questions = db.questions ∨
    (deleteQuestion db id).2.questions = db.questions.filter (fun q => q.id ≠ id) := by
  unfold deleteQuestion
  split
  · left; rfl
  · right; rfl

/-- The identifier `x` resolves to no stored question, and can never be
handed out again by the generator. -/
def qAbsent (db : DB) (x : Nat) : Prop :=
  (∀ q ∈ db.questions, q.id ≠ x) ∧ x < db.nextId

/-- Absence of a question identifier is preserved by every single request:
generated ids only move forward, so a deleted id is never reassigned. -/
theorem step_qAbsent (hash : String → String) (verify : String → String → Bool)
    (db : DB) (op : Op) (x : Nat) (h : qAbsent db x) :
    qAbsent (step hash verify db op).2 x := by
  obtain ⟨habs, hlt⟩ := h
  cases op with
  | signup req =>
    refine ⟨?_, ?_⟩
    · show ∀ q ∈ (signup hash db req).2.questions, q.id ≠ x
      rw [(signup_parts hash db req).1]; exact habs
    · exact Nat.lt_of_lt_of_le hlt (signup_parts hash db req).2.2
  | login e p => exact ⟨habs, hlt⟩
  | listQuestions => exact ⟨habs, hlt⟩
  | listReplies qid => exact ⟨habs, hlt⟩
  | createQuestion t d =>
    rcases createQuestion_shape db t d with hdb | ⟨t0, d0, -, -, hdb⟩
    · refine ⟨?_, ?_⟩
      · show ∀ q ∈ (createQuestion db t d).2.questions, q.id ≠ x
        rw [hdb]; exact habs
      · show x < (createQuestion db t d).2.nextId
        rw [hdb]; exact hlt
    · refine ⟨?_, ?_⟩
      · show ∀ q ∈ (createQuestion db t d).2.questions, q.id ≠ x
        rw [hdb]
        intro q hq
        rcases List.mem_append.mp hq with hmem | hmem
        · exact habs q hmem
        · have hq0 : q = ⟨db.nextId, t0, d0, false, 0⟩ := by simpa using hmem
          subst hq0
          intro hcontra
          have hx : db.nextId = x := hcontra
          omega
      · show x < (createQuestion db t d).2.nextId
        rw [hdb]
        exact Nat.lt_succ_of_lt hlt
  | updateQuestion id r u =>
    rcases updateQuestion_questions db id r u with hdb | ⟨q, hq, hdb⟩
    · refine ⟨?_, ?_⟩
      · show ∀ p ∈ (updateQuestion db id r u).2.questions, p.id ≠ x
        rw [hdb]; exact habs
      · show x < (updateQuestion db id r u).2.nextId
        rw [(updateQuestion_parts db id r u).2.2]; exact hlt
    · have hq' : db.questions.find? (fun z => z.id == id) = some q := hq
      have hqmem : q ∈ db.questions := List.mem_of_find?_eq_some hq'
      refine ⟨?_, ?_⟩
      · show ∀ p ∈ (updateQuestion db id r u).2.questions, p.id ≠ x
        rw [hdb]
        intro p hp
        rcases List.mem_map.mp hp with ⟨y, hy, hyp⟩
        by_cases hyid : y.id = id
        · have hpq : p = { q with resolved := r.getD q.resolved, upvotes := u.getD q.upvotes } := by
            rw [← hyp]; simp [hyid]
          rw [hpq]
          show q.id ≠ x
          exact habs q hqmem
        · have hpy : p = y := by rw [← hyp]; simp [hyid]
          rw [hpy]; exact habs y hy
      · show x < (updateQuestion db id r u).2.nextId
        rw [(updateQuestion_parts db id r u).2.2]; exact hlt
  | deleteQuestion id =>
    refine ⟨?_, ?_⟩
    · show ∀ p ∈ (deleteQuestion db id).2.questions, p.id ≠ x
      rcases deleteQuestion_questions db id with hdb | hdb
      · rw [hdb]; exact habs
      · rw [hdb]
        intro p hp
        exact habs p (List.mem_of_mem_filter hp)
    · show x < (deleteQuestion db id).2.nextId
      rw [(deleteQuestion_parts db id).2.2]; exact hlt
  | addReply qid c =>
    refine ⟨?_, ?_⟩
    · show ∀ p ∈ (addReply db qid c).2.questions, p.id ≠ x
      rw [(addReply_parts db qid c).2.1]; exact habs
    · exact Nat.lt_of_lt_of_le hlt (addReply_parts db qid c).2.2

/-- Absence of a question identifier is preserved by any request sequence. -/
theorem run_qAbsent (hash : String → String) (verify : String → String → Bool)
    (x : Nat) : ∀ (ops : List Op) (db : DB),
    qAbsent db x → qAbsent (run hash verify db ops) x := by
  intro ops
  induction ops with
  | nil => intro db h; exact h
  | cons op tl ih =>
    intro db h
    exact ih _ (step_qAbsent hash verify db op x h)

/-- When the id resolves to no stored question, update answers 404 and leaves
the store untouched. -/
theorem updateQuestion_notFound (db : DB) (id : Nat) (r : Option Bool)
    (u : Option Int) (h : findQuestion db id = none) :
    updateQuestion db id r u = (⟨404, "Question not found", .nothing⟩, db) := by
  simp [updateQuestion, h]

/-- When the id resolves to no stored question, delete answers 404 and leaves
the store untouched. -/
theorem deleteQuestion_notFound (db : DB) (id : Nat)
    (h : findQuestion db id = none) :
    deleteQuestion db id = (⟨404, "Question not found", .nothing⟩, db) := by
  simp [deleteQuestion, h]

/-! ## C7: a deleted question stays gone -/

/-- C7.  On a store whose question ids are all below the generator counter
(true of every reachable store), once a delete succeeds, every subsequent
update and every subsequent delete of the same identifier — after any further
request sequence — answers 404 "Question not found". -/
theorem delete_then_not_found (hash : String → String) (verify : String → String → Bool)
    (db : DB) (id : Nat) (r : Option Bool) (u : Option Int)
    (hb : ∀ q ∈ db.questions, q.id < db.nextId)
    (hdel : (deleteQuestion db id).1.status = 200) :
    ∀ ops,
      (updateQuestion (run hash verify (deleteQuestion db id).2 ops) id r u).1 =
        ⟨404, "Question not found", .nothing⟩ ∧
      (deleteQuestion (run hash verify (deleteQuestion db id).2 ops) id).1 =
        ⟨404, "Question not found", .nothing⟩ := by
  have hfound : ∃ q, findQuestion db id = some q := by
    cases hfind : findQuestion db id with
    | some q => exact ⟨q, rfl⟩
    | none =>
      have hd : deleteQuestion db id = (⟨404, "Question not found", .nothing⟩, db) := by
        simp [deleteQuestion, hfind]
      rw [hd] at hdel
      simp at hdel
  obtain ⟨q, hq⟩ := hfound
  have hq' : db.questions.find? (fun p => p.id == id) = some q := hq
  have habs0 : qAbsent (deleteQuestion db id).2 id := by
    constructor
    · have hdq : (deleteQuestion db id).2.questions =
          db.questions.filter (fun p => p.id ≠ id) := by
        simp [deleteQuestion, findQuestion, hq']
      rw [hdq]
      intro p hp
      simpa using (List.mem_filter.mp hp).2
    · rw [(deleteQuestion_parts db id).2.2]
      have hqmem : q ∈ db.questions := List.mem_of_find?_eq_some hq'
      have hqlt := hb q hqmem
      have hqid : q.id = id := by simpa using List.find?_some hq'
      omega
  intro ops
  obtain ⟨habs, -⟩ := run_qAbsent hash verify id ops _ habs0
  have hfind2 : findQuestion (run hash verify (deleteQuestion db id).2 ops) id = none := by
    unfold findQuestion
    rw [List.find?_eq_none]
    intro p hp
    simpa using habs p hp
  exact ⟨by rw [updateQuestion_notFound _ id r u hfind2],
    by rw [deleteQuestion_notFound _ id hfind2]⟩

/-- Witness for C7 on the one-question store, with no intervening requests. -/
theorem delete_then_not_found_witness :
    (updateQuestion (run hash0 verify0 (deleteQuestion dbQ 0).2 []) 0 (some true) none).1 =
      ⟨404, "Question not found", .nothing⟩ ∧
    (deleteQuestion (run hash0 verify0 (deleteQuestion dbQ 0).2 []) 0).1 =
      ⟨404, "Question not found", .nothing⟩ :=
  delete_then_not_found hash0 verify0 dbQ 0 (some true) none (by decide) (by decide) []

/-! ## C6: add-reply vs list-replies on a missing question -/

/-- A store reached by create–reply–delete: the question is gone but its
reply survives (delete does not cascade). -/
def orphanDB : DB :=
  (deleteQuestion
    (addReply (createQuestion DB.empty (some "t") (some "d")).2 0 (some "hi")).2 0).2

/-- Counterexample to C6 as stated: in the reachable store `orphanDB` the
identifier 0 resolves to no stored question, yet list-replies on 0 returns
the orphaned reply — a nonempty sequence — because delete does not cascade
to replies. -/
theorem listReplies_orphan_cex :
    findQuestion orphanDB 0 = none ∧
    (listReplies orphanDB 0).status = 200 ∧
    (listReplies orphanDB 0).payload = .replies [⟨1, "hi", 0⟩] ∧
    ¬(listReplies orphanDB 0).payload = .replies [] := by
  decide

/-- C6 (amended).  For an identifier with no corresponding stored question,
add-reply fails with 404 "Question not found", while list-replies succeeds
(status 200) with the stored replies referencing that identifier — which is
the empty sequence exactly when no stored reply references it (orphans of a
deleted question are still returned). -/
theorem addReply_notFound_listReplies (db : DB) (x : Nat) (c : Option String)
    (habs : findQuestion db x = none) :
    (addReply db x c).1 = ⟨404, "Question not found", .nothing⟩ ∧
    (listReplies db x).status = 200 ∧
    (listReplies db x).payload =
      .replies (db.replies.filter (fun r => r.questionId == x)) ∧
    ((∀ r ∈ db.replies, r.questionId ≠ x) →
      (listReplies db x).payload = .replies []) := by
  refine ⟨by simp [addReply, habs], rfl, rfl, fun hno => ?_⟩
  show Payload.replies (db.replies.filter (fun r => r.questionId == x)) = .replies []
  have hnil : db.replies.filter (fun r => r.questionId == x) = [] := by
    rw [List.filter_eq_nil_iff]
    intro r hr
    simpa using hno r hr
  rw [hnil]

/-- Witness for the amended C6 on the empty store. -/
theorem addReply_notFound_listReplies_witness :
    (addReply DB.empty 5 (some "hi")).1 = ⟨404, "Question not found", .nothing⟩ ∧
    (listReplies DB.empty 5).status = 200 ∧
    (listReplies DB.empty 5).payload =
      .replies (DB.empty.replies.filter (fun r => r.questionId == 5)) ∧
    ((∀ r ∈ DB.empty.replies, r.questionId ≠ 5) →
      (listReplies DB.empty 5).payload = .replies []) :=
  addReply_notFound_listReplies DB.empty 5 (some "hi") (by decide)

/-! ## C9: the existence check precedes content validation -/

/-- C9.  In add-reply the `findById` check runs first: an unresolvable
question id yields 404 whatever the content field holds (absent or empty
included), and consequently a 400 validation failure can only arise when the
referenced question exists. -/
theorem addReply_check_order (db : DB) (qid : Nat) (c : Option String) :
    (findQuestion db qid = none →
      (addReply db qid c).1 = ⟨404, "Question not found", .nothing⟩) ∧
    ((addReply db qid c).1.status = 400 → ∃ q ∈ db.questions, q.id = qid) := by
  constructor
  · intro h
    simp [addReply, h]
  · intro h400
    cases hfind : findQuestion db qid with
    | none =>
      have ha : addReply db qid c = (⟨404, "Question not found", .nothing⟩, db) := by
        simp [addReply, hfind]
      rw [ha] at h400
      simp at h400
    | some q =>
      have hq' : db.questions.find? (fun p => p.id == qid) = some q := hfind
      exact ⟨q, List.mem_of_find?_eq_some hq', by simpa using List.find?_some hq'⟩

/-- Witness for C9: a missing question with absent content still answers 404,
and a 400 on the one-question store implies that question exists. -/
theorem addReply_check_order_witness :
    (addReply DB.empty 3 none).1 = ⟨404, "Question not found", .nothing⟩ ∧
    ∃ q ∈ dbQ.questions, q.id = 0 :=
  ⟨(addReply_check_order DB.empty 3 none).1 (by decide),
   (addReply_check_order dbQ 0 none).2 (by decide)⟩

end Forum
